import Mathlib

/-!
Shallow embedding of the DeHashed API client (`dehashed_api.py`):
the request-execution / error-classification layer (`_make_request`),
client construction (`DeHashedClient.__init__`), the payload builders
for the operation catalog, and the CSV flattener (`save_results_to_csv`).

JSON-compatible Python values are modelled by `Value` (floats are not
needed by any claim and are omitted).  Python dictionaries are modelled
as association lists in insertion order, matching the dict-building
style of the source.
-/

/-- A JSON-compatible Python value: `None`, `bool`, `int`, `str`,
`list`, or `dict` (association list in insertion order). -/
inductive Value where
  | vnull : Value
  | vbool (b : Bool) : Value
  | vint (n : Int) : Value
  | vstr (s : String) : Value
  | vlist (xs : List Value) : Value
  | vobj (kvs : List (String × Value)) : Value

mutual

/-- Python `str(value)`.  For strings it is the string itself; for a
list or dict it is the container rendering, whose elements are shown
with `repr`.  String escaping inside `repr` is not modelled (no claim
exercises strings needing escapes). -/
def pyStr : Value → String
  | .vnull => "None"
  | .vbool b => if b then "True" else "False"
  | .vint n => toString n
  | .vstr s => s
  | .vlist xs => "[" ++ pyReprJoin xs ++ "]"
  | .vobj kvs => "\x7b" ++ pyReprItems kvs ++ "\x7d"

/-- Python `repr(value)`: like `pyStr` except strings are quoted. -/
def pyRepr : Value → String
  | .vnull => "None"
  | .vbool b => if b then "True" else "False"
  | .vint n => toString n
  | .vstr s => "\x27" ++ s ++ "\x27"
  | .vlist xs => "[" ++ pyReprJoin xs ++ "]"
  | .vobj kvs => "\x7b" ++ pyReprItems kvs ++ "\x7d"

/-- Comma-joined `repr`s of list elements, as in Python `str` of a list. -/
def pyReprJoin : List Value → String
  | [] => ""
  | [v] => pyRepr v
  | v :: vs => pyRepr v ++ ", " ++ pyReprJoin vs

/-- Comma-joined `repr(key): repr(value)` items, as in Python `str` of a dict. -/
def pyReprItems : List (String × Value) → String
  | [] => ""
  | [(k, v)] => "\x27" ++ k ++ "\x27: " ++ pyRepr v
  | (k, v) :: kvs => "\x27" ++ k ++ "\x27: " ++ pyRepr v ++ ", " ++ pyReprItems kvs

end

mutual

/-- Python `json.dumps(value)` with its default separators
(item separator is a comma followed by a space, key separator is a colon
followed by a space).  String escaping is not modelled (no claim
exercises strings needing escapes). -/
def jsonDumps : Value → String
  | .vnull => "null"
  | .vbool b => if b then "true" else "false"
  | .vint n => toString n
  | .vstr s => "\x22" ++ s ++ "\x22"
  | .vlist xs => "[" ++ jsonDumpsJoin xs ++ "]"
  | .vobj kvs => "\x7b" ++ jsonDumpsItems kvs ++ "\x7d"

/-- Comma-joined `json.dumps` of list elements. -/
def jsonDumpsJoin : List Value → String
  | [] => ""
  | [v] => jsonDumps v
  | v :: vs => jsonDumps v ++ ", " ++ jsonDumpsJoin vs

/-- Comma-joined `"key": value` items of `json.dumps` of a dict. -/
def jsonDumpsItems : List (String × Value) → String
  | [] => ""
  | [(k, v)] => "\x22" ++ k ++ "\x22: " ++ jsonDumps v
  | (k, v) :: kvs => "\x22" ++ k ++ "\x22: " ++ jsonDumps v ++ ", " ++ jsonDumpsItems kvs

end

/-- One search-result entry: a Python dict from field name to value. -/
abbrev Entry := List (String × Value)

/-- Python `entry[key]` / `entry.get(key)` on a dict: first binding of
the key (dict keys are unique in Python). -/
def dictGet (k : String) (e : List (String × Value)) : Option Value :=
  match e with
  | [] => none
  | (k2, v) :: rest => if k2 = k then some v else dictGet k rest

/-- Python `key in entry` on a dict. -/
def dictHasKey (k : String) (e : List (String × Value)) : Bool :=
  (dictGet k e).isSome

/-! ## TabularFlattener: `save_results_to_csv`

The source collects the union of all entry keys into a set, orders the
columns as `priority_fields` (unconditionally) followed by the other
non-`raw_record` fields sorted lexicographically, appends `raw_record`
when present, then writes one header row and one flattened row per
entry through `csv.DictWriter`. -/

/-- Lexicographic code-point comparison on character lists: the order
Python string comparison (and hence `sorted`) uses. -/
def charListLe : List Char → List Char → Bool
  | [], _ => true
  | _ :: _, [] => false
  | a :: as, b :: bs => if a < b then true else if b < a then false else charListLe as bs

/-- Python `a <= b` on strings: code-point lexicographic order. -/
def pyStrLe (a b : String) : Bool := charListLe a.data b.data

/-- Insert into a sorted list, keeping it sorted under `pyStrLe`. -/
def pyOrderedInsert (a : String) : List String → List String
  | [] => [a]
  | b :: l => if pyStrLe a b then a :: b :: l else b :: pyOrderedInsert a l

/-- Python `sorted` on a list of strings (insertion sort; the result is
the unique sorted arrangement, so the algorithm choice is immaterial). -/
def pysorted : List String → List String
  | [] => []
  | b :: l => pyOrderedInsert b (pysorted l)

/-- The hard-coded `priority_fields` list of `save_results_to_csv`. -/
def priority_fields : List String := ["id", "database_name"]

/-- The union of all field names over all entries (a Python set, here a
deduplicated list whose order is irrelevant because every use sorts or
tests membership). -/
def fieldnames (entries : List Entry) : List String :=
  (entries.flatMap (fun e => e.map Prod.fst)).dedup

/-- The column order of `save_results_to_csv`: `priority_fields` first
(unconditionally), then the remaining collected fields other than
`raw_record` sorted lexicographically (Python `sorted`), then
`raw_record` when some entry has it. -/
def sorted_fields (entries : List Entry) : List String :=
  let fns := fieldnames entries
  priority_fields
    ++ pysorted (fns.filter (fun f => f ∉ priority_fields ∧ f ≠ "raw_record"))
    ++ (if "raw_record" ∈ fns then ["raw_record"] else [])

/-- The value stored in the `flattened` dict for one key: either a
string produced by the flattening branches, or the entry value passed
through unchanged by the `else` branch. -/
inductive CellVal where
  | topStr (s : String) : CellVal
  | raw (v : Value) : CellVal

/-- The loop body of `save_results_to_csv`: absent key gives the empty
string; a list is joined with the literal separator; a dict becomes its
`json.dumps` string; any other value is stored unchanged. -/
def flatten_field (e : Entry) (key : String) : CellVal :=
  match dictGet key e with
  | none => .topStr ""
  | some v =>
    match v with
    | .vlist xs => .topStr (String.intercalate "; " (xs.map pyStr))
    | .vobj kvs => .topStr (jsonDumps (.vobj kvs))
    | other => .raw other

/-- The string the `csv` writer puts in the output cell: strings are
written as-is, `None` is written as the empty string, and any other
value is converted with `str`. -/
def csv_cell : CellVal → String
  | .topStr s => s
  | .raw .vnull => ""
  | .raw v => pyStr v

/-- One output data row: the cell for each column in header order. -/
def flatten_entry (fields : List String) (e : Entry) : List String :=
  fields.map (fun key => csv_cell (flatten_field e key))

/-- All rows written by `save_results_to_csv` for a non-empty entry
list: the header row, then one flattened row per entry in input
order. -/
def csv_rows (entries : List Entry) : List (List String) :=
  sorted_fields entries :: entries.map (flatten_entry (sorted_fields entries))

/-! ## RequestExecutor: `_make_request`

`_make_request` posts to `base_url ++ endpoint` and classifies the
outcome with two `except` clauses: `requests.exceptions.HTTPError`
(raised by `response.raise_for_status()` on a 4xx/5xx status) and the
more general `requests.exceptions.RequestException` (connection
failures, timeouts, DNS failures, and — in the `requests` library —
the `JSONDecodeError` raised by `response.json()` on a body that is
not valid JSON, since it subclasses `RequestException`).

The network interaction is an environment input `Outcome`: either no
response was received (with the exception text of the underlying
`RequestException`), or a response arrived, carrying its status code,
reason phrase, and the result of `response.json()` — `some` parsed
value, or `none` together with the text of the `JSONDecodeError` the
parse raises. -/

/-- The default `base_url` of `DeHashedConfig`. -/
def base_url : String := "https://api.dehashed.com/v2"

/-- An HTTP response as `_make_request` observes it. -/
structure HttpResponse where
  status : Nat
  reason : String
  /-- Result of `response.json()`: `some` when the body parses. -/
  jsonBody : Option Value
  /-- Text of the `JSONDecodeError` raised by `response.json()` when
  `jsonBody = none` (for the body "not json" the Python text is
  "Expecting value: line 1 column 1 (char 0)"). -/
  decodeErrText : String

/-- The outcome of the single `session.post` call. -/
inductive Outcome where
  | noResponse (excText : String) : Outcome
  | gotResponse (r : HttpResponse) : Outcome

/-- Which `except` clause of `_make_request` produced the error. -/
inductive ErrBranch where
  | httpError : ErrBranch
  | requestException : ErrBranch
deriving DecidableEq

/-- The `DeHashedAPIError` the code raises: a single exception type
carrying only a message; `branch` records which `except` clause built
it. -/
structure DeHashedAPIError where
  branch : ErrBranch
  msg : String

/-- `response.raise_for_status()` raises `HTTPError` exactly for
status codes 400-599; 1xx/2xx/3xx pass. -/
def raise_for_status_fails (status : Nat) : Bool :=
  decide (400 ≤ status) && decide (status < 600)

/-- `str(e)` of the `HTTPError` raised by `raise_for_status`:
"<status> Client Error: <reason> for url: <url>" for 4xx and
"<status> Server Error: <reason> for url: <url>" for 5xx. -/
def http_error_text (status : Nat) (reason url : String) : String :=
  toString status ++ (if status < 500 then " Client Error: " else " Server Error: ")
    ++ reason ++ " for url: " ++ url

/-- The `except HTTPError` handler body: start from
"API request failed: str(e)", then, when the error body parses as a
dict, prefer "API Error: <message field>", else "API Error: <error
field>"; any failure inside the inner `try` (body not JSON, or body not
a dict so that indexing raises) leaves the default.  Non-string field
values are formatted with `str` by the f-string. -/
def extract_http_error_msg (r : HttpResponse) (url : String) : String :=
  let deflt := "API request failed: " ++ http_error_text r.status r.reason url
  match r.jsonBody with
  | some (.vobj kvs) =>
    match dictGet "message" kvs with
    | some m => "API Error: " ++ pyStr m
    | none =>
      match dictGet "error" kvs with
      | some m => "API Error: " ++ pyStr m
      | none => deflt
  | _ => deflt

/-- `DeHashedClient._make_request`: one POST, one classification, no
retry.  On a 4xx/5xx status the `HTTPError` clause raises
`DeHashedAPIError` with the extracted message; otherwise the body is
parsed, and a parse failure (a `RequestException` subclass) — like any
no-response failure — is caught by the generic clause, which raises
`DeHashedAPIError` with "API request failed: str(e)". -/
def _make_request (endpoint : String) (outcome : Outcome) : Except DeHashedAPIError Value :=
  let url := base_url ++ endpoint
  match outcome with
  | .noResponse excText =>
    .error ⟨.requestException, "API request failed: " ++ excText⟩
  | .gotResponse r =>
    if raise_for_status_fails r.status then
      .error ⟨.httpError, extract_http_error_msg r url⟩
    else
      match r.jsonBody with
      | some j => .ok j
      | none => .error ⟨.requestException, "API request failed: " ++ r.decodeErrText⟩

/-- An outcome on which the request cannot succeed: no response, an
error status, or an unparseable success body. -/
def outcome_fails : Outcome → Bool
  | .noResponse _ => true
  | .gotResponse r => raise_for_status_fails r.status || r.jsonBody.isNone

/-! ## Client construction: `DeHashedClient.__init__` -/

/-- `DeHashedConfig` with its defaults. -/
structure DeHashedConfig where
  api_key : String
  base_address : String := base_url
  timeout : Nat := 30

/-- Result of running `DeHashedClient.__init__`: the configuration (or
the raised error message), plus the number of `_make_request`
invocations the constructor performed — its body only resolves the key
and prepares the session, so this is `0` on every path. -/
structure InitResult where
  config : Except String DeHashedConfig
  networkCalls : Nat

/-- `DeHashedClient.__init__`: an explicit `api_key` is used as given;
when it is `None` the `DEHASHED_API_KEY` environment variable is read;
when that is also unset the constructor raises `DeHashedAPIError`
before any request machinery is touched. -/
def DeHashedClient_init (api_key env_DEHASHED_API_KEY : Option String) : InitResult :=
  match api_key with
  | some k => ⟨.ok { api_key := k }, 0⟩
  | none =>
    match env_DEHASHED_API_KEY with
    | some k => ⟨.ok { api_key := k }, 0⟩
    | none =>
      ⟨.error "API key must be provided or set in DEHASHED_API_KEY environment variable", 0⟩

/-! ## OperationCatalog: payload builders -/

/-- Python truthiness of an optional list argument (`if channels:`):
false for `None` and for the empty list. -/
def truthyList (xs : Option (List String)) : Bool :=
  match xs with
  | none => false
  | some l => !l.isEmpty

/-- Python truthiness of an optional string argument (`if name:`):
false for `None` and for the empty string. -/
def truthyStr (s : Option String) : Bool :=
  match s with
  | none => false
  | some v => !v.isEmpty

/-- The payload built by `search`: all six keys are always present, in
this insertion order, with defaults `page=1`, `size=10000`,
`wildcard=False`, `regex=False`, `de_dupe=False`. -/
def search_payload (query : String) (page : Int := 1) (size : Int := 10000)
    (wildcard : Bool := false) (regex : Bool := false) (de_dupe : Bool := false) :
    List (String × Value) :=
  [("query", .vstr query), ("page", .vint page), ("size", .vint size),
   ("wildcard", .vbool wildcard), ("regex", .vbool regex), ("de_dupe", .vbool de_dupe)]

/-- The payload built by `monitoring_create_task`: `type` and `value`
always; `channels` appended only when the argument is truthy (not
`None` and not the empty list). -/
def monitoring_create_task_payload (task_type value : String)
    (channels : Option (List String) := none) : List (String × Value) :=
  let data := [("type", Value.vstr task_type), ("value", Value.vstr value)]
  match channels with
  | some l => if !l.isEmpty then data ++ [("channels", .vlist (l.map .vstr))] else data
  | none => data

/-- The payload built by `monitoring_update_task`: `id`, `type`,
`value` always; `channels` appended only when the argument is truthy. -/
def monitoring_update_task_payload (task_id task_type value : String)
    (channels : Option (List String) := none) : List (String × Value) :=
  let data := [("id", Value.vstr task_id), ("type", Value.vstr task_type),
               ("value", Value.vstr value)]
  match channels with
  | some l => if !l.isEmpty then data ++ [("channels", .vlist (l.map .vstr))] else data
  | none => data

/-- The payload built by `whois_reverse`: `search_type` always, and
each of `name`, `organization`, `email`, `include`, `exclude` appended
only when the argument is truthy.  (`inc` and `exc` stand for the
`include` and `exclude` parameters.) -/
def whois_reverse_payload (name organization email : Option String := none)
    (inc exc : Option (List String) := none) : List (String × Value) :=
  let data := [("search_type", Value.vstr "reverse-whois")]
  let data := if truthyStr name then data ++ [("name", .vstr (name.getD ""))] else data
  let data := if truthyStr organization then
    data ++ [("organization", .vstr (organization.getD ""))] else data
  let data := if truthyStr email then data ++ [("email", .vstr (email.getD ""))] else data
  let data := if truthyList inc then
    data ++ [("include", .vlist ((inc.getD []).map .vstr))] else data
  let data := if truthyList exc then
    data ++ [("exclude", .vlist ((exc.getD []).map .vstr))] else data
  data

/-- Whether `needle` occurs as a contiguous substring of `hay` (used to
state what an error message does or does not carry). -/
def strContainsSub (hay needle : String) : Bool := decide (needle.data <:+: hay.data)

/-! ## `get_balance` -/

/-- `get_balance`: performs the throwaway search
`search("email:test@test.com", size=1)` (whose network outcome is the
argument), and under `except Exception` maps every failure — and a
success whose body is not a dict, where `.get` would raise — to `None`;
on a dict response it returns `response.get("balance")`. -/
def get_balance (outcome : Outcome) : Option Value :=
  match _make_request "/search" outcome with
  | .error _ => none
  | .ok j =>
    match j with
    | .vobj kvs => dictGet "balance" kvs
    | _ => none

/-! ## Helper lemmas on the string sort -/

theorem charListLe_total (as bs : List Char) :
    charListLe as bs = true ∨ charListLe bs as = true := by
  induction as generalizing bs with
  | nil => left; rfl
  | cons a as ih =>
    cases bs with
    | nil => right; rfl
    | cons b bs =>
      by_cases h1 : a < b
      · left; simp [charListLe, h1]
      · by_cases h2 : b < a
        · right; simp [charListLe, h2]
        · rcases ih bs with h | h
          · left; simp [charListLe, h1, h2, h]
          · right; simp [charListLe, h1, h2, h]

theorem pyStrLe_total (a b : String) : pyStrLe a b = true ∨ pyStrLe b a = true :=
  charListLe_total a.data b.data

theorem head?_pyOrderedInsert (a : String) (l : List String) :
    (pyOrderedInsert a l).head? = some a ∨ (pyOrderedInsert a l).head? = l.head? := by
  cases l with
  | nil => left; rfl
  | cons b l =>
    rw [pyOrderedInsert]
    by_cases h : pyStrLe a b <;> simp [h]

theorem chain'_pyOrderedInsert (a : String) (l : List String)
    (h : List.Chain' (fun x y => pyStrLe x y = true) l) :
    List.Chain' (fun x y => pyStrLe x y = true) (pyOrderedInsert a l) := by
  induction l with
  | nil => simp [pyOrderedInsert]
  | cons b l ih =>
    rw [pyOrderedInsert]
    by_cases hab : pyStrLe a b = true
    · simp only [hab, if_true]
      exact (List.chain'_cons).mpr ⟨hab, h⟩
    · simp only [hab, if_false, Bool.false_eq_true]
      rw [List.chain'_cons']
      refine ⟨?_, ih h.tail⟩
      intro y hy
      rcases head?_pyOrderedInsert a l with h1 | h1
      · rw [h1] at hy
        cases hy
        exact (pyStrLe_total a b).resolve_left hab
      · rw [h1] at hy
        exact (List.chain'_cons'.mp h).1 y hy

theorem chain'_pysorted (l : List String) :
    List.Chain' (fun x y => pyStrLe x y = true) (pysorted l) := by
  induction l with
  | nil => simp [pysorted]
  | cons b l ih => exact chain'_pyOrderedInsert b (pysorted l) ih

theorem mem_pyOrderedInsert {x a : String} {l : List String} :
    x ∈ pyOrderedInsert a l ↔ x = a ∨ x ∈ l := by
  induction l with
  | nil => simp [pyOrderedInsert]
  | cons b l ih =>
    rw [pyOrderedInsert]
    by_cases h : pyStrLe a b
    · simp [h]
    · simp only [h, if_false, Bool.false_eq_true, List.mem_cons, ih]
      tauto

theorem mem_pysorted {x : String} {l : List String} : x ∈ pysorted l ↔ x ∈ l := by
  induction l with
  | nil => simp [pysorted]
  | cons b l ih => simp [pysorted, mem_pyOrderedInsert, ih]

/-! ## Claims -/

/-- C1 (counterexample): on the input
`[{"id":"1","x":"a"}, {"id":"2","y":"b"}]` the header produced by
`save_results_to_csv` is `["id","database_name","x","y"]`, not the
claimed `["id","x","y"]`, and it is not the union of the entries' field
names: `database_name` occurs in no entry yet is a column. -/
theorem C1_counterexample :
    sorted_fields [[("id", .vstr "1"), ("x", .vstr "a")], [("id", .vstr "2"), ("y", .vstr "b")]]
      = ["id", "database_name", "x", "y"]
    ∧ sorted_fields [[("id", .vstr "1"), ("x", .vstr "a")], [("id", .vstr "2"), ("y", .vstr "b")]]
      ≠ ["id", "x", "y"]
    ∧ "database_name"
      ∉ fieldnames [[("id", .vstr "1"), ("x", .vstr "a")], [("id", .vstr "2"), ("y", .vstr "b")]] := by
  refine ⟨by decide, by decide, by decide⟩

/-- C1 (amended): in every flattening pass the header starts with `id`
then `database_name` unconditionally (whether or not any entry has
them), followed by all remaining collected field names except
`raw_record` sorted lexicographically by code point, followed by
`raw_record` last exactly when some entry has it; the middle block
contains exactly the non-priority, non-`raw_record` members of the
union of the entries' field names. -/
theorem C1_header_order (entries : List Entry) :
    ∃ mid : List String,
      sorted_fields entries
        = ["id", "database_name"] ++ mid
            ++ (if "raw_record" ∈ fieldnames entries then ["raw_record"] else [])
      ∧ List.Chain' (fun a b => pyStrLe a b = true) mid
      ∧ (∀ f, f ∈ mid ↔
          f ∈ fieldnames entries ∧ f ∉ priority_fields ∧ f ≠ "raw_record") := by
  refine ⟨pysorted ((fieldnames entries).filter
      (fun f => f ∉ priority_fields ∧ f ≠ "raw_record")), rfl, chain'_pysorted _, ?_⟩
  intro f
  rw [mem_pysorted, List.mem_filter]
  simp

/-- C2: for every flattening pass, the output is the header row
followed by exactly one row per entry in input order, every data row
has exactly one cell per header column, and a column whose field is
absent from an entry yields the empty string in that entry's row. -/
theorem C2_uniform_rows (entries : List Entry) :
    (csv_rows entries).length = entries.length + 1
    ∧ (csv_rows entries).head? = some (sorted_fields entries)
    ∧ (csv_rows entries).tail = entries.map (flatten_entry (sorted_fields entries))
    ∧ (∀ row ∈ (csv_rows entries).tail, row.length = (sorted_fields entries).length)
    ∧ (∀ e : Entry, ∀ i : Nat, ∀ key : String,
        (sorted_fields entries)[i]? = some key →
        dictHasKey key e = false →
        (flatten_entry (sorted_fields entries) e)[i]? = some "") := by
  refine ⟨by simp [csv_rows], rfl, rfl, ?_, ?_⟩
  · intro row hrow
    rw [csv_rows] at hrow
    simp only [List.tail_cons, List.mem_map] at hrow
    obtain ⟨e, _, rfl⟩ := hrow
    simp [flatten_entry]
  · intro e i key hk habs
    rw [flatten_entry, List.getElem?_map, hk]
    cases hd : dictGet key e with
    | some v => rw [dictHasKey, hd] at habs; simp at habs
    | none => simp [flatten_field, hd, csv_cell]

/-- C2 (witness): on the single entry `{"id":"1"}` the header is
`["id","database_name"]` and the absent `database_name` column of the
entry's row is the empty string. -/
theorem C2_uniform_rows_witness :
    (flatten_entry (sorted_fields [[("id", Value.vstr "1")]]) [("id", Value.vstr "1")])[1]?
      = some "" :=
  (C2_uniform_rows [[("id", Value.vstr "1")]]).2.2.2.2
    [("id", Value.vstr "1")] 1 "database_name" (by decide) (by decide)

/-- C3 (counterexample): a 2xx response whose body is not valid JSON
(body "not json", whose `JSONDecodeError` text is
"Expecting value: line 1 column 1 (char 0)") does not fail with a
distinct Malformed-kind error carrying a snippet of the raw body: the
raised error is literally identical to the one raised for a pure
transport failure with the same exception text, and its message
contains no part of the raw body. -/
theorem C3_counterexample :
    _make_request "/search"
        (.gotResponse ⟨200, "OK", none, "Expecting value: line 1 column 1 (char 0)"⟩)
      = .error ⟨.requestException,
          "API request failed: Expecting value: line 1 column 1 (char 0)"⟩
    ∧ _make_request "/search"
        (.gotResponse ⟨200, "OK", none, "Expecting value: line 1 column 1 (char 0)"⟩)
      = _make_request "/search" (.noResponse "Expecting value: line 1 column 1 (char 0)")
    ∧ strContainsSub "API request failed: Expecting value: line 1 column 1 (char 0)"
        "not json" = false := by
  refine ⟨rfl, rfl, by decide⟩

/-- C3 (amended): every failure of a submitted request is classified by
the except clause that catches it: a connection failure, timeout or DNS
failure (no response received) fails through the generic
RequestException clause — never the HTTPError clause — with message
"API request failed: " followed by the exception text; a 2xx-class
response whose body is not valid JSON fails through the same generic
clause with "API request failed: " followed by the JSON decoder's
error text (not a snippet of the raw body, and not a distinct
Malformed kind); and no failing outcome is retried or swallowed: the
executor returns an error for it. -/
theorem C3_failure_classification (endpoint : String) (outcome : Outcome) :
    (∀ e, outcome = .noResponse e →
      _make_request endpoint outcome
        = .error ⟨.requestException, "API request failed: " ++ e⟩)
    ∧ (∀ r, outcome = .gotResponse r → raise_for_status_fails r.status = false →
        r.jsonBody = none →
        _make_request endpoint outcome
          = .error ⟨.requestException, "API request failed: " ++ r.decodeErrText⟩)
    ∧ (outcome_fails outcome = true → ∀ j, _make_request endpoint outcome ≠ .ok j) := by
  refine ⟨?_, ?_, ?_⟩
  · rintro e rfl
    rfl
  · rintro r rfl hs hb
    rw [_make_request]
    simp [hs, hb]
  · intro hfail j
    cases outcome with
    | noResponse e => simp [_make_request]
    | gotResponse r =>
      rw [outcome_fails] at hfail
      rw [_make_request]
      rcases Bool.or_eq_true_iff.mp hfail with hs | hb
      · simp [hs]
      · cases hjb : r.jsonBody with
        | some v => rw [hjb] at hb; simp at hb
        | none => cases hs : raise_for_status_fails r.status <;> simp [hs, hjb]

/-- C3 (witness): a timeout with exception text "Connection timed out"
fails through the generic RequestException clause. -/
theorem C3_failure_classification_witness :
    _make_request "/search" (.noResponse "Connection timed out")
      = .error ⟨.requestException, "API request failed: " ++ "Connection timed out"⟩ :=
  (C3_failure_classification "/search" (.noResponse "Connection timed out")).1
    "Connection timed out" rfl

/-- C4 (counterexample): a 400 response with body
`{"message":"invalid query"}` raises the message
"API Error: invalid query": the surfaced text is not exactly
"invalid query" and the original status code 400 appears nowhere in
the error, so the status is not preserved; and a non-2xx response with
status 304 does not fail at all (`raise_for_status` only raises for
4xx/5xx), contradicting "for every non-2xx response". -/
theorem C4_counterexample :
    _make_request "/search"
        (.gotResponse ⟨400, "Bad Request",
          some (.vobj [("message", .vstr "invalid query")]), ""⟩)
      = .error ⟨.httpError, "API Error: invalid query"⟩
    ∧ ("API Error: invalid query" : String) ≠ "invalid query"
    ∧ strContainsSub "API Error: invalid query" "400" = false
    ∧ _make_request "/search" (.gotResponse ⟨304, "Not Modified", some (.vobj []), ""⟩)
      = .ok (.vobj []) := by
  refine ⟨rfl, by decide, by decide, rfl⟩

/-- C4 (amended): every 4xx/5xx response fails through the HTTPError
clause; its message is "API Error: " followed by the body's `message`
field when the body parses as a dict having one, else "API Error: "
followed by the `error` field, else the raw HTTPError text
"API request failed: <status> Client/Server Error: <reason> for url:
<url>"; the status code is surfaced only in that fallback text, so it
is lost whenever a `message` or `error` field is extracted. -/
theorem C4_http_status_errors (endpoint : String) (r : HttpResponse)
    (hs : raise_for_status_fails r.status = true) :
    (∀ kvs m, r.jsonBody = some (.vobj kvs) → dictGet "message" kvs = some m →
      _make_request endpoint (.gotResponse r)
        = .error ⟨.httpError, "API Error: " ++ pyStr m⟩)
    ∧ (∀ kvs m, r.jsonBody = some (.vobj kvs) → dictGet "message" kvs = none →
        dictGet "error" kvs = some m →
        _make_request endpoint (.gotResponse r)
          = .error ⟨.httpError, "API Error: " ++ pyStr m⟩)
    ∧ (r.jsonBody = none →
        _make_request endpoint (.gotResponse r)
          = .error ⟨.httpError, "API request failed: "
              ++ http_error_text r.status r.reason (base_url ++ endpoint)⟩) := by
  refine ⟨?_, ?_, ?_⟩
  · intro kvs m hb hm
    rw [_make_request]
    simp [hs, extract_http_error_msg, hb, hm]
  · intro kvs m hb hm he
    rw [_make_request]
    simp [hs, extract_http_error_msg, hb, hm, he]
  · intro hb
    rw [_make_request]
    simp [hs, extract_http_error_msg, hb]

/-- C4 (witness): a 401 response whose dict body has
`"message": "unauthorized"` fails with "API Error: unauthorized". -/
theorem C4_http_status_errors_witness :
    _make_request "/search"
        (.gotResponse ⟨401, "Unauthorized", some (.vobj [("message", .vstr "unauthorized")]), ""⟩)
      = .error ⟨.httpError, "API Error: " ++ pyStr (.vstr "unauthorized")⟩ :=
  (C4_http_status_errors "/search"
      ⟨401, "Unauthorized", some (.vobj [("message", .vstr "unauthorized")]), ""⟩
      (by decide)).1
    [("message", .vstr "unauthorized")] (.vstr "unauthorized") rfl rfl

/-- C5: for create-monitoring-task and update-monitoring-task, a
`None` or empty `channels` argument leaves the `channels` key out of
the payload entirely, while a non-empty list is carried under
`channels`. -/
theorem C5_channels_omission (t v tid : String) (channels : Option (List String)) :
    ((channels = none ∨ channels = some []) →
      dictHasKey "channels" (monitoring_create_task_payload t v channels) = false
      ∧ dictHasKey "channels" (monitoring_update_task_payload tid t v channels) = false)
    ∧ (∀ c cs, channels = some (c :: cs) →
        dictGet "channels" (monitoring_create_task_payload t v channels)
          = some (.vlist ((c :: cs).map .vstr))
        ∧ dictGet "channels" (monitoring_update_task_payload tid t v channels)
          = some (.vlist ((c :: cs).map .vstr))) := by
  constructor
  · rintro (rfl | rfl) <;> exact ⟨rfl, rfl⟩
  · rintro c cs rfl
    constructor <;>
      simp [monitoring_create_task_payload, monitoring_update_task_payload, dictGet]

/-- C5 (witness): with no channels argument, neither task payload
contains a `channels` key. -/
theorem C5_channels_omission_witness :
    dictHasKey "channels"
      (monitoring_create_task_payload "email" "monitor@example.com" none) = false
    ∧ dictHasKey "channels"
      (monitoring_update_task_payload "task-id-123" "email" "new@example.com" none) = false :=
  (C5_channels_omission "email" "monitor@example.com" "task-id-123" none).1 (Or.inl rfl)

/-- C6: with no explicit key and no `DEHASHED_API_KEY` value, client
construction fails with the configuration-missing message while having
performed zero `_make_request` calls; an explicit key always wins over
the environment value, and the environment value is used when no
explicit key is given. -/
theorem C6_credential_resolution (api_key env : Option String) :
    ((DeHashedClient_init none none).config
        = .error "API key must be provided or set in DEHASHED_API_KEY environment variable"
      ∧ (DeHashedClient_init none none).networkCalls = 0)
    ∧ (∀ s, api_key = some s →
        DeHashedClient_init api_key env = ⟨.ok { api_key := s }, 0⟩)
    ∧ (∀ s, DeHashedClient_init none (some s) = ⟨.ok { api_key := s }, 0⟩) := by
  refine ⟨⟨rfl, rfl⟩, ?_, fun s => rfl⟩
  rintro s rfl
  rfl

/-- C6 (witness): an explicit key "key-a" wins over environment value
"key-b", with zero network calls. -/
theorem C6_credential_resolution_witness :
    DeHashedClient_init (some "key-a") (some "key-b") = ⟨.ok { api_key := "key-a" }, 0⟩ :=
  (C6_credential_resolution (some "key-a") (some "key-b")).2.1 "key-a" rfl

/-- C7: a reverse-WHOIS call with zero optional arguments builds the
payload whose only key is `search_type` with value "reverse-whois";
in general `search_type` is always present, and each optional key is
present exactly when its argument is truthy (in particular it is
absent whenever the caller did not provide the argument). -/
theorem C7_whois_reverse_payload (name organization email : Option String)
    (inc exc : Option (List String)) :
    whois_reverse_payload none none none none none
      = [("search_type", .vstr "reverse-whois")]
    ∧ dictGet "search_type" (whois_reverse_payload name organization email inc exc)
      = some (.vstr "reverse-whois")
    ∧ dictGet "name" (whois_reverse_payload name organization email inc exc)
      = (if truthyStr name then some (.vstr (name.getD "")) else none)
    ∧ dictGet "organization" (whois_reverse_payload name organization email inc exc)
      = (if truthyStr organization then some (.vstr (organization.getD "")) else none)
    ∧ dictGet "email" (whois_reverse_payload name organization email inc exc)
      = (if truthyStr email then some (.vstr (email.getD "")) else none)
    ∧ dictGet "include" (whois_reverse_payload name organization email inc exc)
      = (if truthyList inc then some (.vlist ((inc.getD []).map .vstr)) else none)
    ∧ dictGet "exclude" (whois_reverse_payload name organization email inc exc)
      = (if truthyList exc then some (.vlist ((exc.getD []).map .vstr)) else none) := by
  cases hn : truthyStr name <;> cases ho : truthyStr organization <;>
    cases he : truthyStr email <;> cases hi : truthyList inc <;> cases hx : truthyList exc <;>
    refine ⟨rfl, ?_, ?_, ?_, ?_, ?_, ?_⟩ <;>
    simp [whois_reverse_payload, hn, ho, he, hi, hx, dictGet]

/-- C8: the balance probe never propagates a failure: whenever the
throwaway search fails the result is `None`, and on success it is
`response.get("balance")` — `None` again when the response is not a
dict or lacks a `balance` field. -/
theorem C8_get_balance_probe (outcome : Outcome) :
    (∀ err, _make_request "/search" outcome = .error err → get_balance outcome = none)
    ∧ (∀ kvs, _make_request "/search" outcome = .ok (.vobj kvs) →
        get_balance outcome = dictGet "balance" kvs)
    ∧ (∀ j, _make_request "/search" outcome = .ok j → (∀ kvs, j ≠ .vobj kvs) →
        get_balance outcome = none) := by
  refine ⟨?_, ?_, ?_⟩
  · intro err h
    rw [get_balance, h]
  · intro kvs h
    rw [get_balance, h]
  · intro j h hne
    rw [get_balance, h]
    cases j <;> first | rfl | exact absurd rfl (hne _)

/-- C8 (witness): a timed-out probe reports the balance as unknown. -/
theorem C8_get_balance_probe_witness : get_balance (.noResponse "timeout") = none :=
  (C8_get_balance_probe (.noResponse "timeout")).1
    ⟨.requestException, "API request failed: timeout"⟩ rfl

/-- C9 (counterexample): a field holding JSON null (Python `None`) is
emitted as the empty string by the csv writer, not as its string
representation "None", so "every other value is emitted as that
value's string representation" fails at the entry `{"a": null}`. -/
theorem C9_counterexample :
    csv_cell (flatten_field [("a", Value.vnull)] "a") = ""
    ∧ pyStr Value.vnull = "None"
    ∧ ("" : String) ≠ "None" := by
  refine ⟨rfl, rfl, by decide⟩

/-- C9 (amended): for every field present in a row, a list value is
emitted as its elements' `str` forms joined with the literal separator
"; ", a nested mapping as its `json.dumps` string, and every other
non-null value as its string representation (the string itself, the
decimal form of an int, "True"/"False" for a bool), while a null value
is emitted as the empty string. -/
theorem C9_cell_values (e : Entry) (key : String) :
    (∀ xs, dictGet key e = some (.vlist xs) →
      csv_cell (flatten_field e key) = String.intercalate "; " (xs.map pyStr))
    ∧ (∀ kvs, dictGet key e = some (.vobj kvs) →
        csv_cell (flatten_field e key) = jsonDumps (.vobj kvs))
    ∧ (∀ s, dictGet key e = some (.vstr s) → csv_cell (flatten_field e key) = s)
    ∧ (∀ n, dictGet key e = some (.vint n) →
        csv_cell (flatten_field e key) = toString n)
    ∧ (∀ b, dictGet key e = some (.vbool b) →
        csv_cell (flatten_field e key) = (if b then "True" else "False"))
    ∧ (dictGet key e = some .vnull → csv_cell (flatten_field e key) = "") := by
  refine ⟨?_, ?_, ?_, ?_, ?_, ?_⟩
  · intro xs h
    simp [flatten_field, h, csv_cell]
  · intro kvs h
    simp [flatten_field, h, csv_cell]
  · intro s h
    simp [flatten_field, h, csv_cell, pyStr]
  · intro n h
    simp [flatten_field, h, csv_cell, pyStr]
  · intro b h
    simp [flatten_field, h, csv_cell, pyStr]
  · intro h
    simp [flatten_field, h, csv_cell]

/-- C9 (witness): the list field `["a","b","c"]` flattens to the
literal string "a; b; c". -/
theorem C9_cell_values_witness :
    csv_cell (flatten_field [("l", Value.vlist [.vstr "a", .vstr "b", .vstr "c"])] "l")
      = "a; b; c" := by
  rw [(C9_cell_values [("l", Value.vlist [.vstr "a", .vstr "b", .vstr "c"])] "l").1
    [.vstr "a", .vstr "b", .vstr "c"] rfl]
  decide

/-- C10: the search payload always holds exactly the keys `query`,
`page`, `size`, `wildcard`, `regex`, `de_dupe` in this order, `query`
holds the caller's string, and the defaults are page 1, size 10000 and
false for the three flags. -/
theorem C10_search_payload_keys (query : String) (page size : Int) (w r d : Bool) :
    (search_payload query page size w r d).map Prod.fst
      = ["query", "page", "size", "wildcard", "regex", "de_dupe"]
    ∧ dictGet "query" (search_payload query page size w r d) = some (.vstr query)
    ∧ search_payload query
      = [("query", .vstr query), ("page", .vint 1), ("size", .vint 10000),
         ("wildcard", .vbool false), ("regex", .vbool false), ("de_dupe", .vbool false)] :=
  ⟨rfl, rfl, rfl⟩
